import Mathlib

/-!
Shallow embedding of `src/nx/source/runtime/c11-threads.c` (libnx C11 threads
compatibility layer).

Machine integers are modelled as `Int`/`Nat`; the one place where unsigned
64-bit wraparound matters (`impl_timespec2nsec`) reduces modulo `2 ^ 64`
explicitly.  The kernel primitives (`condvarWaitTimeout`, `mutexTryLock`,
`threadWaitForExit`, `threadClose`, `svcSleepThread`, ...) live outside the
sources under verification, so each operation takes the kernel outcome it
consumes as an explicit oracle argument and, where a claim speaks about
whether a kernel primitive was invoked at all, returns that fact alongside
the C return value.
-/

/-! ### C11 result codes (from the `threads.h` the source compiles against) -/

def thrd_success : Int := 0

def thrd_busy : Int := 1

def thrd_error : Int := 2

def thrd_nomem : Int := 3

def thrd_timedout : Int := 4

/-- Values of the `int type` argument of `mtx_init` (from `threads.h`). -/
def mtx_plain : Int := 0

def mtx_recursive : Int := 1

/-- The `U64_MAX` sentinel used by `cnd_wait` (c11-threads.c line 82). -/
def U64_MAX : Nat := 2 ^ 64 - 1

/-! ### Data model -/

/-- `cnd_t` is the kernel condition-variable word (an opaque `u32`). -/
structure cnd_t where
  value : Nat
deriving DecidableEq

/-- Which kernel primitive of the `mtx_t` union has been initialized.
`mtx_init` (lines 96-103) initializes the plain `mutex` member for
`mtx_plain` and the `rmutex` member for `mtx_recursive`; a
default-constructed mutex has neither. -/
inductive MtxPayload
  | uninit
  | plainInit
  | recursiveInit
deriving DecidableEq

/-- `mtx_t`: the `type` tag plus the union payload (lines 90-105 write them;
lock/unlock/trylock dispatch on `type`). -/
structure mtx_t where
  type : Int
  payload : MtxPayload
deriving DecidableEq

/-- Modelled from the spec: the outcome of the kernel condition-variable
timed wait `condvarWaitTimeout`, whose implementation is not among the
sources under verification.  Spec section 6: the kernel exposes
`condvar_wait_with_timeout(condvar, mutex, nanoseconds) -> outcome` with
`outcome` among woken, timed_out, failed. -/
inductive KWaitOutcome
  | woken
  | timed_out
  | failed
deriving DecidableEq

/-- Modelled from the spec: whether the `Result` value produced by
`condvarWaitTimeout` satisfies `R_SUCCEEDED`.  Only a genuine wake is a
success result; a timeout and a hard failure are both non-success results
(spec section 6 lists them as outcomes distinct from `woken`). -/
def kResultSucceeded : KWaitOutcome → Bool
  | KWaitOutcome.woken => true
  | KWaitOutcome.timed_out => false
  | KWaitOutcome.failed => false

/-- Return value of the condvar wait adapter together with whether the
kernel wait primitive was invoked at all. -/
structure CndWaitResult where
  ret : Int
  kernelInvoked : Bool
deriving DecidableEq

/-! ### Condition-variable operations (c11-threads.c lines 62-83) -/

/-- `__cnd_timedwait` (lines 62-70): rejects a null `cond`, a null `mtx`,
or a mutex whose `type` is not `mtx_plain` with `thrd_error` before any
kernel call; otherwise invokes `condvarWaitTimeout` (outcome supplied by
the oracle `k`) and maps `R_SUCCEEDED` to `thrd_success`, everything else
to `thrd_error`. -/
def __cnd_timedwait (cond : Option cnd_t) (mtx : Option mtx_t) (timeout : Nat)
    (k : KWaitOutcome) : CndWaitResult :=
  match cond, mtx with
  | none, _ => ⟨thrd_error, false⟩
  | some _, none => ⟨thrd_error, false⟩
  | some _, some m =>
    if m.type ≠ mtx_plain then ⟨thrd_error, false⟩
    else ⟨if kResultSucceeded k then thrd_success else thrd_error, true⟩

/-- `struct timespec` (only the two fields the source reads). -/
structure timespec where
  tv_sec : Int
  tv_nsec : Int
deriving DecidableEq

/-- C cast `(u64)x` of a signed 64-bit value: reduce modulo `2 ^ 64`. -/
def u64ofInt (i : Int) : Nat :=
  (i % (2 ^ 64 : Int)).toNat

/-- `impl_timespec2nsec` (lines 6-9): `(u64)ts->tv_sec * 1000000000 +
ts->tv_nsec`, with unsigned 64-bit wraparound. -/
def impl_timespec2nsec (ts : timespec) : Nat :=
  (u64ofInt ts.tv_sec * 1000000000 + u64ofInt ts.tv_nsec) % 2 ^ 64

/-- `cnd_timedwait` (lines 72-78): rejects a null `abs_time`, otherwise
forwards to `__cnd_timedwait` with the converted deadline. -/
def cnd_timedwait (cond : Option cnd_t) (mtx : Option mtx_t)
    (abs_time : Option timespec) (k : KWaitOutcome) : CndWaitResult :=
  match abs_time with
  | none => ⟨thrd_error, false⟩
  | some ts => __cnd_timedwait cond mtx (impl_timespec2nsec ts) k

/-- `cnd_wait` (lines 80-83): `__cnd_timedwait` with the `U64_MAX`
no-deadline sentinel. -/
def cnd_wait (cond : Option cnd_t) (mtx : Option mtx_t) (k : KWaitOutcome) :
    CndWaitResult :=
  __cnd_timedwait cond mtx U64_MAX k

/-! ### Mutex operations (c11-threads.c lines 90-160) -/

/-- Which kernel mutex primitive a dispatch ended up invoking (`none` in the
result means the `switch` fell through without any kernel call). -/
inductive MtxPrim
  | plainLock
  | recursiveLock
  | plainUnlock
  | recursiveUnlock
  | plainTry
  | recursiveTry
deriving DecidableEq

/-- `mtx_init` (lines 90-105): rejects a null mutex or a `type` that is
neither `mtx_plain` nor `mtx_recursive`; otherwise records the type tag and
initializes the matching union member, returning `thrd_success`. -/
def mtx_init (mtx : Option mtx_t) (type : Int) : Int × Option mtx_t :=
  match mtx with
  | none => (thrd_error, none)
  | some m =>
    if type ≠ mtx_plain ∧ type ≠ mtx_recursive then (thrd_error, some m)
    else if type = mtx_plain then
      (thrd_success, some ⟨type, MtxPayload.plainInit⟩)
    else
      (thrd_success, some ⟨type, MtxPayload.recursiveInit⟩)

/-- `mtx_lock` (lines 107-121): null mutex is `thrd_error`; otherwise the
`switch` on `type` calls `mutexLock` or `rmutexLock` (or falls through for
any other tag) and the function returns `thrd_success`. -/
def mtx_lock (mtx : Option mtx_t) : Int × Option MtxPrim :=
  match mtx with
  | none => (thrd_error, none)
  | some m =>
    if m.type = mtx_plain then (thrd_success, some MtxPrim.plainLock)
    else if m.type = mtx_recursive then (thrd_success, some MtxPrim.recursiveLock)
    else (thrd_success, none)

/-- `mtx_unlock` (lines 146-160): same shape as `mtx_lock` with the unlock
primitives. -/
def mtx_unlock (mtx : Option mtx_t) : Int × Option MtxPrim :=
  match mtx with
  | none => (thrd_error, none)
  | some m =>
    if m.type = mtx_plain then (thrd_success, some MtxPrim.plainUnlock)
    else if m.type = mtx_recursive then (thrd_success, some MtxPrim.recursiveUnlock)
    else (thrd_success, none)

/-- `mtx_trylock` (lines 129-144): null mutex is `thrd_error`; `res` starts
`false`, the `switch` on `type` sets it from `mutexTryLock` /
`rmutexTryLock` (oracles `plainAcq` / `recAcq`), and the result is
`res ? thrd_success : thrd_error`. -/
def mtx_trylock (mtx : Option mtx_t) (plainAcq recAcq : Bool) :
    Int × Option MtxPrim :=
  match mtx with
  | none => (thrd_error, none)
  | some m =>
    if m.type = mtx_plain then
      (if plainAcq then thrd_success else thrd_error, some MtxPrim.plainTry)
    else if m.type = mtx_recursive then
      (if recAcq then thrd_success else thrd_error, some MtxPrim.recursiveTry)
    else (thrd_error, none)

/-! ### `call_once` (c11-threads.c lines 11-28)

One caller's execution is modelled as a trace of events.  The statuses the
caller observes at the head of the wait loop after each `cnd_wait` wake come
from an oracle list (they are written by other threads); the trace is
truncated when the oracle runs out while the status is still 1, which
corresponds to the caller still being blocked. -/

inductive OnceEvent
  | lockMutex
  | unlockMutex
  | setStatus (n : Nat)
  | invokeFunc
  | broadcastCond
  | waitCond (observed : Nat)
deriving DecidableEq

/-- The wait branch (lines 22-25): `while (flag->status == 1)
cnd_wait(&flag->cond, &flag->mutex);`.  `s` is the status currently
observed; each wake observes the next oracle value. -/
def onceWaitLoop : Nat → List Nat → List OnceEvent
  | _, [] => []
  | s, w :: ws =>
    if s = 1 then OnceEvent.waitCond w :: onceWaitLoop w ws else []

/-- `call_once` (lines 11-28) as an event trace for one caller:
lock; if status is 0 then set 1, unlock, call `func`, lock, set 2,
broadcast; else run the wait loop; finally unlock. -/
def call_once_trace (initStatus : Nat) (obs : List Nat) : List OnceEvent :=
  OnceEvent.lockMutex ::
    ((if initStatus = 0 then
        [OnceEvent.setStatus 1, OnceEvent.unlockMutex, OnceEvent.invokeFunc,
         OnceEvent.lockMutex, OnceEvent.setStatus 2, OnceEvent.broadcastCond]
      else onceWaitLoop initStatus obs)
      ++ [OnceEvent.unlockMutex])

/-- The status values this caller writes, in trace order. -/
def statusWrites : List OnceEvent → List Nat
  | [] => []
  | OnceEvent.setStatus n :: es => n :: statusWrites es
  | _ :: es => statusWrites es

/-- Check, folding the caller's mutex-held state over the trace, that every
`invokeFunc` event happens while the caller does not hold the flag's
private mutex.  (`waitCond` releases and reacquires the mutex inside the
kernel wait, so the caller holds it again when the event completes.) -/
def invokesOnlyUnlocked : Bool → List OnceEvent → Bool
  | _, [] => true
  | held, OnceEvent.invokeFunc :: es => !held && invokesOnlyUnlocked held es
  | _, OnceEvent.lockMutex :: es => invokesOnlyUnlocked true es
  | _, OnceEvent.unlockMutex :: es => invokesOnlyUnlocked false es
  | held, _ :: es => invokesOnlyUnlocked held es

/-! ### Thread-creation handshake (c11-threads.c lines 172-185 and 223-229)

The creator/spawned-thread interaction is modelled as a transition system.
`trampolineStarted` records that the spawned thread has begun executing
`__thrd_entry`; `started` is `info.thread_started`; `creatorReturned`
records that `thrd_create` has exited its wait loop and returned
`thrd_success`. -/

structure HandshakeState where
  trampolineStarted : Bool
  started : Bool
  creatorReturned : Bool
deriving DecidableEq

/-- The individual steps:
the spawned thread begins executing `__thrd_entry` (line 172); it sets
`info.thread_started = true` under the handshake mutex (line 179), which is
possible only once the trampoline is running; the creator returns from
`thrd_create` (lines 223-229), which is possible only once the loop
`while (!info.thread_started) cnd_wait(...)` has observed `started`. -/
inductive HandshakeStep : HandshakeState → HandshakeState → Prop
  | beginTrampoline (s : HandshakeState) :
      HandshakeStep s ⟨true, s.started, s.creatorReturned⟩
  | setStarted (s : HandshakeState) :
      s.trampolineStarted = true →
      HandshakeStep s ⟨s.trampolineStarted, true, s.creatorReturned⟩
  | creatorReturn (s : HandshakeState) :
      s.started = true →
      HandshakeStep s ⟨s.trampolineStarted, s.started, true⟩

/-- Initial state: `info.thread_started = false` (line 207), thread not yet
running, creator inside `thrd_create`. -/
def handshakeInit : HandshakeState := ⟨false, false, false⟩

/-- States reachable from the initial handshake state. -/
inductive HandshakeReachable : HandshakeState → Prop
  | init : HandshakeReachable handshakeInit
  | step {s t : HandshakeState} :
      HandshakeReachable s → HandshakeStep s t → HandshakeReachable t

/-! ### `thrd_join` (c11-threads.c lines 261-276) -/

/-- The heap-allocated `__thrd_t` record; `rc` is the return-code slot
written by `thrd_exit`. -/
structure __thrd_t where
  rc : Int
deriving DecidableEq

/-- Observable outcome of `thrd_join`: the C return value, the value
written through the `res` out-pointer (`none` if the pointer was null or
never written), and whether `free` / `threadClose` were reached. -/
structure JoinResult where
  ret : Int
  resOut : Option Int
  freed : Bool
  closed : Bool
deriving DecidableEq

/-- `thrd_join` (lines 261-276): if `threadWaitForExit` fails (oracle
`waitOk = false`) return `thrd_error` at once; otherwise write `thr->rc`
through `res` when non-null, close the kernel thread (oracle `closeOk`),
free the record, and return `thrd_success` exactly when the close
succeeded. -/
def thrd_join (thr : __thrd_t) (resRequested waitOk closeOk : Bool) :
    JoinResult :=
  if waitOk = false then ⟨thrd_error, none, false, false⟩
  else
    ⟨if closeOk then thrd_success else thrd_error,
     if resRequested then some thr.rc else none,
     true, true⟩

/-! ### `thrd_sleep` (c11-threads.c lines 278-290) -/

/-- Observable outcome of `thrd_sleep`: the C return value, the value
written through the `remaining` out-pointer (`none` if null or never
written), and the nanosecond count passed to `svcSleepThread` (`none` if
the sleep primitive was never invoked). -/
structure SleepResult where
  ret : Int
  remainingOut : Option timespec
  sleptNs : Option Nat
deriving DecidableEq

/-- `thrd_sleep` (lines 278-290): null `duration` returns `-1` without
sleeping; otherwise sleep for `impl_timespec2nsec duration`, zero both
fields of `remaining` when it is non-null, and return 0. -/
def thrd_sleep (duration : Option timespec) (remainingNonNull : Bool) :
    SleepResult :=
  match duration with
  | none => ⟨-1, none, none⟩
  | some d =>
    ⟨0, if remainingNonNull then some ⟨0, 0⟩ else none,
     some (impl_timespec2nsec d)⟩

/-! ### Theorems -/

/-- C1: the timed wait can only ever return `thrd_success` or `thrd_error`;
in particular, when the kernel reports that the deadline elapsed without a
wake (`timed_out`), it returns `thrd_error` — the very value used for a
kernel-primitive failure — and never the distinct `thrd_timedout`
indication the claim requires.  This evidences the code bug: the source
collapses `Timeout` into `OperationFailed`. -/
theorem cnd_timedwait_timeout_not_distinct (cond : Option cnd_t)
    (mtx : Option mtx_t) (t : Nat) (k : KWaitOutcome) :
    ((__cnd_timedwait cond mtx t k).ret = thrd_success ∨
      (__cnd_timedwait cond mtx t k).ret = thrd_error) ∧
    (__cnd_timedwait (some ⟨0⟩) (some ⟨mtx_plain, MtxPayload.plainInit⟩) t
        KWaitOutcome.timed_out).ret = thrd_error ∧
    thrd_timedout ≠ thrd_success ∧ thrd_timedout ≠ thrd_error := by
  refine ⟨?_, ?_, by decide, by decide⟩
  · rcases cond with _ | c
    · exact Or.inr rfl
    rcases mtx with _ | m
    · exact Or.inr rfl
    by_cases h : m.type = mtx_plain
    · cases k <;> simp [__cnd_timedwait, h, kResultSucceeded]
    · simp [__cnd_timedwait, h]
  · simp [__cnd_timedwait, kResultSucceeded, mtx_plain]

/-- C2: on a correctly initialized mutex, `mtx_trylock` does return success
exactly when the kernel primitive reports acquisition, but a failed
acquisition yields `thrd_error` — the same value returned for a null
mutex — and never the distinct non-fatal `thrd_busy` indication the claim
requires.  This evidences the code bug: `AcquisitionFailed` is collapsed
into the true-error value. -/
theorem mtx_trylock_busy_not_distinct :
    (mtx_trylock (some ⟨mtx_plain, MtxPayload.plainInit⟩) true false).1 =
      thrd_success ∧
    (mtx_trylock (some ⟨mtx_plain, MtxPayload.plainInit⟩) false false).1 =
      thrd_error ∧
    (mtx_trylock (some ⟨mtx_recursive, MtxPayload.recursiveInit⟩) false false).1 =
      thrd_error ∧
    (mtx_trylock none false false).1 = thrd_error ∧
    thrd_error ≠ thrd_busy := by
  decide

/-- C4: `cnd_wait` is extensionally equal to `__cnd_timedwait` applied with
the `U64_MAX` no-deadline sentinel, for every condition variable, mutex and
kernel outcome. -/
theorem cnd_wait_eq_timedwait_U64_MAX (cond : Option cnd_t)
    (mtx : Option mtx_t) (k : KWaitOutcome) :
    cnd_wait cond mtx k = __cnd_timedwait cond mtx U64_MAX k :=
  rfl

/-- C7: for a non-null mutex, `mtx_init` fails with the invalid-argument
error exactly when the requested kind is neither plain nor recursive, and
otherwise records the kind in the tag, initializes the matching kernel
primitive, and returns success. -/
theorem mtx_init_spec (m : mtx_t) (type : Int) :
    ((mtx_init (some m) type).1 = thrd_error ↔
      type ≠ mtx_plain ∧ type ≠ mtx_recursive) ∧
    (type = mtx_plain →
      mtx_init (some m) type =
        (thrd_success, some ⟨mtx_plain, MtxPayload.plainInit⟩)) ∧
    (type = mtx_recursive →
      mtx_init (some m) type =
        (thrd_success, some ⟨mtx_recursive, MtxPayload.recursiveInit⟩)) := by
  refine ⟨?_, ?_, ?_⟩
  · by_cases h : type ≠ mtx_plain ∧ type ≠ mtx_recursive
    · simp [mtx_init, h, thrd_error]
    · rcases not_and_or.mp h with h1 | h1 <;>
        rcases not_not.mp h1 with rfl <;>
          simp [mtx_init, thrd_success, thrd_error, mtx_plain, mtx_recursive]
  · rintro rfl
    simp [mtx_init, mtx_plain, mtx_recursive]
  · rintro rfl
    simp [mtx_init, mtx_plain, mtx_recursive]

/-- C7 witness: initializing a previously uninitialized mutex as plain
records the plain tag and primitive and succeeds. -/
theorem mtx_init_spec_witness :
    mtx_init (some ⟨5, MtxPayload.uninit⟩) mtx_plain =
      (thrd_success, some ⟨mtx_plain, MtxPayload.plainInit⟩) :=
  (mtx_init_spec ⟨5, MtxPayload.uninit⟩ mtx_plain).2.1 rfl

/-- C9: `thrd_sleep` returns `-1` (negative) and performs no sleep when the
duration pointer is null; otherwise it sleeps for the duration converted to
nanoseconds, returns 0, and zeroes both fields of the remaining-time output
exactly when that output pointer is non-null. -/
theorem thrd_sleep_spec (duration : Option timespec) (remNonNull : Bool) :
    (duration = none →
      thrd_sleep duration remNonNull = ⟨-1, none, none⟩ ∧ (-1 : Int) < 0) ∧
    (∀ d : timespec, duration = some d →
      (thrd_sleep duration remNonNull).ret = 0 ∧
      (thrd_sleep duration remNonNull).sleptNs =
        some (impl_timespec2nsec d) ∧
      (thrd_sleep duration remNonNull).remainingOut =
        (if remNonNull then some ⟨0, 0⟩ else none)) := by
  constructor
  · rintro rfl
    exact ⟨rfl, by decide⟩
  · rintro d rfl
    refine ⟨rfl, rfl, rfl⟩

/-- C9 witness: sleeping for 1 second and 2 nanoseconds with a non-null
remaining-time output returns 0, sleeps for the converted duration, and
zeroes the output. -/
theorem thrd_sleep_spec_witness :
    (thrd_sleep (some ⟨1, 2⟩) true).ret = 0 ∧
    (thrd_sleep (some ⟨1, 2⟩) true).sleptNs =
      some (impl_timespec2nsec ⟨1, 2⟩) ∧
    (thrd_sleep (some ⟨1, 2⟩) true).remainingOut =
      (if true then some ⟨0, 0⟩ else none) :=
  (thrd_sleep_spec (some ⟨1, 2⟩) true).2 ⟨1, 2⟩ rfl

/-- C10: a non-null mutex whose tag is neither plain nor recursive makes
`mtx_lock` and `mtx_unlock` fall through their dispatch and return success
without invoking any kernel primitive, while `mtx_trylock` on the same
mutex returns the error value. -/
theorem mtx_ops_unknown_kind (m : mtx_t) (pa ra : Bool)
    (h1 : m.type ≠ mtx_plain) (h2 : m.type ≠ mtx_recursive) :
    mtx_lock (some m) = (thrd_success, none) ∧
    mtx_unlock (some m) = (thrd_success, none) ∧
    mtx_trylock (some m) pa ra = (thrd_error, none) := by
  simp [mtx_lock, mtx_unlock, mtx_trylock, h1, h2]

/-- C10 witness: a mutex with tag 5 (neither plain nor recursive) exhibits
the fall-through behavior. -/
theorem mtx_ops_unknown_kind_witness :
    mtx_lock (some ⟨5, MtxPayload.uninit⟩) = (thrd_success, none) ∧
    mtx_unlock (some ⟨5, MtxPayload.uninit⟩) = (thrd_success, none) ∧
    mtx_trylock (some ⟨5, MtxPayload.uninit⟩) true true = (thrd_error, none) :=
  mtx_ops_unknown_kind ⟨5, MtxPayload.uninit⟩ true true (by decide) (by decide)

/-- C3: the timed wait returns the invalid-argument error without invoking
the kernel wait primitive exactly when the condition variable is null, the
mutex is null, or the mutex's kind tag is not plain; in particular every
wait attempted with a recursive mutex is rejected before any kernel call. -/
theorem cnd_timedwait_invalid_iff (cond : Option cnd_t) (mtx : Option mtx_t)
    (t : Nat) (k : KWaitOutcome) :
    (((__cnd_timedwait cond mtx t k).ret = thrd_error ∧
        (__cnd_timedwait cond mtx t k).kernelInvoked = false) ↔
      (cond = none ∨ mtx = none ∨
        ∃ m : mtx_t, mtx = some m ∧ m.type ≠ mtx_plain)) ∧
    (∀ (c : cnd_t) (m : mtx_t), m.type = mtx_recursive →
      (__cnd_timedwait (some c) (some m) t k).ret = thrd_error ∧
      (__cnd_timedwait (some c) (some m) t k).kernelInvoked = false) := by
  constructor
  · rcases cond with _ | c
    · simp [__cnd_timedwait]
    rcases mtx with _ | m
    · simp [__cnd_timedwait]
    by_cases h : m.type = mtx_plain
    · simp [__cnd_timedwait, h]
    · simp [__cnd_timedwait, h]
  · intro c m hm
    have h : m.type ≠ mtx_plain := by
      rw [hm]; decide
    simp [__cnd_timedwait, h]

/-- C3 witness: a wait on a recursive mutex is rejected with `thrd_error`
and no kernel invocation. -/
theorem cnd_timedwait_invalid_iff_witness :
    (__cnd_timedwait (some ⟨0⟩) (some ⟨mtx_recursive, MtxPayload.recursiveInit⟩)
        5 KWaitOutcome.woken).ret = thrd_error ∧
    (__cnd_timedwait (some ⟨0⟩) (some ⟨mtx_recursive, MtxPayload.recursiveInit⟩)
        5 KWaitOutcome.woken).kernelInvoked = false :=
  (cnd_timedwait_invalid_iff (some ⟨0⟩)
      (some ⟨mtx_recursive, MtxPayload.recursiveInit⟩) 5 KWaitOutcome.woken).2
    ⟨0⟩ ⟨mtx_recursive, MtxPayload.recursiveInit⟩ rfl

/-- C8 counterexample: with a successful kernel wait but a failing
`threadClose`, `thrd_join` returns `thrd_error`, so the claim that join
reports success whenever the wait succeeds is false on the code. -/
theorem thrd_join_close_failure :
    (thrd_join ⟨7⟩ true true false).ret ≠ thrd_success := by
  decide

/-- C8 amended: `thrd_join` fails with the error value, touching nothing,
exactly when the kernel wait-for-exit fails; when the wait succeeds it
writes the stored return code through a non-null `res`, frees the
allocation, releases the kernel thread object, and returns success exactly
when that release also succeeds. -/
theorem thrd_join_spec (thr : __thrd_t) (resReq waitOk closeOk : Bool) :
    (waitOk = false →
      thrd_join thr resReq waitOk closeOk = ⟨thrd_error, none, false, false⟩) ∧
    (waitOk = true →
      (thrd_join thr resReq waitOk closeOk).freed = true ∧
      (thrd_join thr resReq waitOk closeOk).closed = true ∧
      (thrd_join thr resReq waitOk closeOk).resOut =
        (if resReq then some thr.rc else none) ∧
      ((thrd_join thr resReq waitOk closeOk).ret = thrd_success ↔
        closeOk = true)) := by
  cases waitOk <;> cases closeOk <;>
    simp [thrd_join, thrd_success, thrd_error]

/-- C8 witness: a join whose wait and close both succeed frees the record,
closes the thread, reports the stored code 7, and succeeds. -/
theorem thrd_join_spec_witness :
    (thrd_join ⟨7⟩ true true true).freed = true ∧
    (thrd_join ⟨7⟩ true true true).closed = true ∧
    (thrd_join ⟨7⟩ true true true).resOut = (if true then some (7 : Int) else none) ∧
    ((thrd_join ⟨7⟩ true true true).ret = thrd_success ↔ true = true) :=
  (thrd_join_spec ⟨7⟩ true true true).2 rfl

theorem statusWrites_append (a b : List OnceEvent) :
    statusWrites (a ++ b) = statusWrites a ++ statusWrites b := by
  induction a with
  | nil => rfl
  | cons e es ih => cases e <;> simp [statusWrites, ih]

theorem onceWaitLoop_statusWrites (s : Nat) (obs : List Nat) :
    statusWrites (onceWaitLoop s obs) = [] := by
  induction obs generalizing s with
  | nil => rfl
  | cons w ws ih =>
    by_cases h : s = 1 <;> simp [onceWaitLoop, h, statusWrites, ih]

theorem onceWaitLoop_invokesOnlyUnlocked (s : Nat) (obs : List Nat)
    (held : Bool) (l : List OnceEvent) :
    invokesOnlyUnlocked held (onceWaitLoop s obs ++ l) =
      invokesOnlyUnlocked held l := by
  induction obs generalizing s with
  | nil => rfl
  | cons w ws ih =>
    by_cases h : s = 1 <;> simp [onceWaitLoop, h, invokesOnlyUnlocked, ih]

/-- C5: in every (truncated) execution trace of `call_once`, the status
writes this caller performs are exactly `[1, 2]` when it observed status 0
and none otherwise, those writes strictly increase from the observed
status (so the status moves along 0 to 1 to 2 and never regresses), and
the protected function is invoked only while the caller does not hold the
flag's private mutex. -/
theorem call_once_status_monotone (initStatus : Nat) (obs : List Nat) :
    statusWrites (call_once_trace initStatus obs) =
      (if initStatus = 0 then [1, 2] else []) ∧
    List.Chain (fun a b => a < b) initStatus
      (statusWrites (call_once_trace initStatus obs)) ∧
    invokesOnlyUnlocked false (call_once_trace initStatus obs) = true := by
  by_cases h : initStatus = 0
  · subst h
    refine ⟨rfl, ?_, rfl⟩
    exact List.Chain.cons (by decide) (List.Chain.cons (by decide) List.Chain.nil)
  · refine ⟨?_, ?_, ?_⟩
    · simp [call_once_trace, h, statusWrites_append, onceWaitLoop_statusWrites,
        statusWrites]
    · simp [call_once_trace, h, statusWrites_append, onceWaitLoop_statusWrites,
        statusWrites]
    · simp only [call_once_trace, if_neg h, invokesOnlyUnlocked,
        onceWaitLoop_invokesOnlyUnlocked]

theorem handshake_invariant (s : HandshakeState)
    (h : HandshakeReachable s) :
    (s.started = true → s.trampolineStarted = true) ∧
    (s.creatorReturned = true → s.started = true) := by
  induction h with
  | init => constructor <;> intro hx <;> simp [handshakeInit] at hx
  | step hr hst ih =>
    cases hst with
    | beginTrampoline => exact ⟨fun _ => rfl, ih.2⟩
    | setStarted hts => exact ⟨fun _ => hts, fun _ => rfl⟩
    | creatorReturn hstarted => exact ⟨ih.1, fun _ => hstarted⟩

/-- C6: in every reachable state of the thread-creation handshake, if
`thrd_create` has returned to the creator then the spawned thread has
already begun executing its trampoline and has set the started flag — the
creator's wait loop cannot exit before the spawned thread's start, which is
the happens-before edge the claim states. -/
theorem thrd_create_returns_after_start (s : HandshakeState)
    (h : HandshakeReachable s) (hret : s.creatorReturned = true) :
    s.trampolineStarted = true ∧ s.started = true := by
  have inv := handshake_invariant s h
  exact ⟨inv.1 (inv.2 hret), inv.2 hret⟩

/-- C6 witness: the fully completed handshake state is reachable (begin
trampoline, set started, creator returns) and the theorem applies to it. -/
theorem thrd_create_returns_after_start_witness :
    (⟨true, true, true⟩ : HandshakeState).trampolineStarted = true ∧
    (⟨true, true, true⟩ : HandshakeState).started = true :=
  thrd_create_returns_after_start ⟨true, true, true⟩
    (HandshakeReachable.step
      (HandshakeReachable.step
        (HandshakeReachable.step HandshakeReachable.init
          (HandshakeStep.beginTrampoline handshakeInit))
        (HandshakeStep.setStarted ⟨true, false, false⟩ rfl))
      (HandshakeStep.creatorReturn ⟨true, true, false⟩ rfl))
    rfl
